import Mathlib

/-!
Verification of the non-volatile-memory programming layer of the Black Magic
Debug project: the STM32L0/L1 flash/EEPROM/option-byte driver
(src/target/stm32l0.c) and the LPC546xx driver.

The debug transport is modelled by an oracle giving the value returned by the
n-th 32-bit read, the result of the n-th transport error check, and the
failure flag of the n-th 32-bit write.  Every driver routine is a function of
this oracle threading an explicit state that records the ordered trace of
device register accesses and console messages.  Busy-wait loops take a fuel
argument and return `none` when the bound is exhausted (the C loop would still
be polling); all other control flow is translated directly from the C source.
-/

/-! ## Register map constants (from src/target/stm32l0.c) -/

def STM32Lx_FLASH_BANK_BASE : Nat := 0x08000000
def STM32L0_FLASH_BANK_SIZE : Nat := 0x00010000
def STM32L0_FLASH_PAGE_SIZE : Nat := 0x00000080
def STM32Lx_EEPROM_BASE : Nat := 0x08080000

def STM32Lx_FLASH_PECR (flash_base : Nat) : Nat := flash_base + 0x04
def STM32Lx_FLASH_PEKEYR (flash_base : Nat) : Nat := flash_base + 0x0c
def STM32Lx_FLASH_PRGKEYR (flash_base : Nat) : Nat := flash_base + 0x10
def STM32Lx_FLASH_OPTKEYR (flash_base : Nat) : Nat := flash_base + 0x14
def STM32Lx_FLASH_SR (flash_base : Nat) : Nat := flash_base + 0x18
def STM32Lx_FLASH_OPTR (flash_base : Nat) : Nat := flash_base + 0x1c

def STM32L0_FLASH_BASE : Nat := 0x40022000
def STM32L0_FLASH_OPT_SIZE : Nat := 12
def STM32L0_FLASH_EEPROM_CAT1_SIZE : Nat := 512
def STM32L0_FLASH_EEPROM_CAT2_SIZE : Nat := 1024
def STM32L0_FLASH_EEPROM_CAT3_SIZE : Nat := 2048
def STM32L0_FLASH_EEPROM_CAT5_SIZE : Nat := 6144

def STM32L1_FLASH_BASE : Nat := 0x40023c00
def STM32L1_FLASH_OPT_SIZE : Nat := 32
def STM32L1_FLASH_EEPROM_SIZE : Nat := 16384

def STM32Lx_FLASH_OPT_BASE : Nat := 0x1ff80000
def STM32Lx_FLASH_EEPROM_BASE : Nat := 0x08080000

def STM32Lx_FLASH_PEKEY1 : Nat := 0x89abcdef
def STM32Lx_FLASH_PEKEY2 : Nat := 0x02030405
def STM32Lx_FLASH_PRGKEY1 : Nat := 0x8c9daebf
def STM32Lx_FLASH_PRGKEY2 : Nat := 0x13141516
def STM32Lx_FLASH_OPTKEY1 : Nat := 0xfbead9c8
def STM32Lx_FLASH_OPTKEY2 : Nat := 0x24252627

def STM32Lx_FLASH_PECR_OBL_LAUNCH : Nat := 1 <<< 18
def STM32Lx_FLASH_PECR_FPRG : Nat := 1 <<< 10
def STM32Lx_FLASH_PECR_ERASE : Nat := 1 <<< 9
def STM32Lx_FLASH_PECR_FIX : Nat := 1 <<< 8
def STM32Lx_FLASH_PECR_DATA : Nat := 1 <<< 4
def STM32Lx_FLASH_PECR_PROG : Nat := 1 <<< 3
def STM32Lx_FLASH_PECR_OPTLOCK : Nat := 1 <<< 2
def STM32Lx_FLASH_PECR_PRGLOCK : Nat := 1 <<< 1
def STM32Lx_FLASH_PECR_PELOCK : Nat := 1 <<< 0

def STM32Lx_FLASH_SR_NOTZEROERR : Nat := 1 <<< 16
def STM32Lx_FLASH_SR_SIZERR : Nat := 1 <<< 10
def STM32Lx_FLASH_SR_PGAERR : Nat := 1 <<< 9
def STM32Lx_FLASH_SR_WRPERR : Nat := 1 <<< 8
def STM32Lx_FLASH_SR_EOP : Nat := 1 <<< 1
def STM32Lx_FLASH_SR_BSY : Nat := 1 <<< 0

def STM32Lx_FLASH_SR_ERR_MASK : Nat :=
  STM32Lx_FLASH_SR_WRPERR ||| STM32Lx_FLASH_SR_PGAERR ||| STM32Lx_FLASH_SR_SIZERR |||
    STM32Lx_FLASH_SR_NOTZEROERR

def STM32Lx_FLASH_OPTR_RDPROT_MASK : Nat := 0xff
def STM32Lx_FLASH_OPTR_RDPROT_0 : Nat := 0xaa
def STM32Lx_FLASH_OPTR_RDPROT_2 : Nat := 0xcc

/-! ## Transport model -/

/-- Oracle for the debug transport: n-th read value, n-th error-check result,
n-th write-failure flag. -/
structure Oracle where
  readResp : Nat → Nat
  errResp : Nat → Bool
  writeFail : Nat → Bool

/-- One observable event of a driver routine: a device register access of a
given width, a transport error check, or a console message. -/
inductive Access where
  | read32 (addr value : Nat)
  | write32 (addr value : Nat)
  | write16 (addr value : Nat)
  | write8 (addr value : Nat)
  | writeBlock (addr length : Nat)
  | checkError (result : Bool)
  | message (text : String)
deriving DecidableEq, Repr

/-- Execution state: counters indexing into the oracle plus the ordered
event trace. -/
structure TState where
  nReads : Nat
  nErrors : Nat
  nWrites : Nat
  trace : List Access
deriving DecidableEq, Repr

def TState.start : TState := ⟨0, 0, 0, []⟩

/-- target_mem32_write32: returns the C function's failure flag. -/
def target_mem32_write32 (or : Oracle) (s : TState) (addr value : Nat) : Bool × TState :=
  (or.writeFail s.nWrites,
    { s with nWrites := s.nWrites + 1, trace := s.trace ++ [Access.write32 addr value] })

def target_mem32_write16 (or : Oracle) (s : TState) (addr value : Nat) : TState :=
  { s with nWrites := s.nWrites + 1, trace := s.trace ++ [Access.write16 addr value] }

def target_mem32_write8 (or : Oracle) (s : TState) (addr value : Nat) : TState :=
  { s with nWrites := s.nWrites + 1, trace := s.trace ++ [Access.write8 addr value] }

/-- target_mem32_write (bulk write of a buffer). -/
def target_mem32_write (or : Oracle) (s : TState) (addr length : Nat) : TState :=
  { s with nWrites := s.nWrites + 1, trace := s.trace ++ [Access.writeBlock addr length] }

def target_mem32_read32 (or : Oracle) (s : TState) (addr : Nat) : Nat × TState :=
  (or.readResp s.nReads,
    { s with nReads := s.nReads + 1,
             trace := s.trace ++ [Access.read32 addr (or.readResp s.nReads)] })

def target_check_error (or : Oracle) (s : TState) : Bool × TState :=
  (or.errResp s.nErrors,
    { s with nErrors := s.nErrors + 1,
             trace := s.trace ++ [Access.checkError (or.errResp s.nErrors)] })

def tc_printf (s : TState) (text : String) : TState :=
  { s with trace := s.trace ++ [Access.message text] }

/-! ## Trace observers -/

/-- The 32-bit register writes of a trace, in order (address, value). -/
def writesOf (tr : List Access) : List (Nat × Nat) :=
  tr.filterMap fun e =>
    match e with
    | .write32 a v => some (a, v)
    | _ => none

/-- The values read from one register address, in order. -/
def readsTo (addr : Nat) (tr : List Access) : List Nat :=
  tr.filterMap fun e =>
    match e with
    | .read32 a v => if a == addr then some v else none
    | _ => none

/-- The console messages of a trace, in order. -/
def msgsOf (tr : List Access) : List String :=
  tr.filterMap fun e =>
    match e with
    | .message m => some m
    | _ => none

/-- Is this event a device register access (any width)? -/
def isRegAccess : Access → Bool
  | .read32 _ _ => true
  | .write32 _ _ => true
  | .write16 _ _ => true
  | .write8 _ _ => true
  | .writeBlock _ _ => true
  | _ => false

/-- Number of device register accesses that happen strictly before the first
occurrence of a given console message. -/
def regAccessesBeforeMsg (m : String) (tr : List Access) : Nat :=
  ((tr.takeWhile fun e => e != Access.message m).filter isRegAccess).length

/-- Whether the last write made to the given register in the trace stored the
PELOCK value (i.e. the controller was left locked). -/
def lastWriteLocked (pecrAddr : Nat) (tr : List Access) : Bool :=
  match ((writesOf tr).filter fun p => p.1 == pecrAddr).getLast? with
  | some p => p.2 == STM32Lx_FLASH_PECR_PELOCK
  | none => false

/-! ## Target / flash region model -/

/-- The part of `target_s` the driver consults. -/
structure Target where
  part_id : Nat
deriving DecidableEq, Repr

def stm32lx_is_stm32l1 (part_id : Nat) : Bool :=
  part_id != 0x457 && part_id != 0x425 && part_id != 0x417 && part_id != 0x447

def stm32lx_nvm_eeprom_size (part_id : Nat) : Nat :=
  if part_id == 0x457 then STM32L0_FLASH_EEPROM_CAT1_SIZE
  else if part_id == 0x425 then STM32L0_FLASH_EEPROM_CAT2_SIZE
  else if part_id == 0x417 then STM32L0_FLASH_EEPROM_CAT3_SIZE
  else if part_id == 0x447 then STM32L0_FLASH_EEPROM_CAT5_SIZE
  else STM32L1_FLASH_EEPROM_SIZE

def stm32lx_flash_base (part_id : Nat) : Nat :=
  if stm32lx_is_stm32l1 part_id then STM32L1_FLASH_BASE else STM32L0_FLASH_BASE

def stm32lx_nvm_option_size (part_id : Nat) : Nat :=
  if stm32lx_is_stm32l1 part_id then STM32L1_FLASH_OPT_SIZE else STM32L0_FLASH_OPT_SIZE

/-- The fields of `target_flash_s` the driver consults (`t` is represented by
the owning target's part id). -/
structure target_flash_s where
  part_id : Nat
  start : Nat
  length : Nat
  blocksize : Nat
deriving DecidableEq, Repr

/-- Which C function a flash region's erase pointer designates. -/
inductive FlashEraseImpl where
  | stm32lxFlashErase
  | stm32lxEepromErase
deriving DecidableEq, Repr

/-- Which C function a flash region's write pointer designates. -/
inductive FlashWriteImpl where
  | stm32lxFlashWrite
  | stm32lxEepromWrite
deriving DecidableEq, Repr

/-- Which attach routine the probe installed. -/
inductive AttachImpl where
  | cortexmDefault
  | stm32lxProtectedAttach
deriving DecidableEq, Repr

/-- Which mass-erase routine the probe installed. -/
inductive MassEraseImpl where
  | stm32lxMassErase
  | stm32lxProtectedMassErase
deriving DecidableEq, Repr

/-- A registered flash region together with its operation vtable entries. -/
structure FlashEntry where
  region : target_flash_s
  eraseImpl : FlashEraseImpl
  writeImpl : FlashWriteImpl
deriving DecidableEq, Repr

/-- stm32l_add_flash: program-flash regions get the stm32lx flash routines and
writesize = erasesize >> 1. -/
def stm32l_add_flash (part_id addr length erasesize : Nat) : FlashEntry :=
  { region := { part_id := part_id, start := addr, length := length, blocksize := erasesize },
    eraseImpl := .stm32lxFlashErase, writeImpl := .stm32lxFlashWrite }

/-- stm32l_add_eeprom: EEPROM regions get blocksize 4 and the eeprom routines. -/
def stm32l_add_eeprom (part_id addr length : Nat) : FlashEntry :=
  { region := { part_id := part_id, start := addr, length := length, blocksize := 4 },
    eraseImpl := .stm32lxEepromErase, writeImpl := .stm32lxEepromWrite }

/-! ## Lock / unlock / busy-wait -/

/-- stm32lx_nvm_lock: lock the FLASH control registers. -/
def stm32lx_nvm_lock (or : Oracle) (s : TState) (flash_base : Nat) : TState :=
  (target_mem32_write32 or s (STM32Lx_FLASH_PECR flash_base) STM32Lx_FLASH_PECR_PELOCK).2

/-- stm32lx_nvm_prog_data_unlock: lock, present PEKEY1/2 then PRGKEY1/2, and
verify by re-reading PECR that PRGLOCK cleared. -/
def stm32lx_nvm_prog_data_unlock (or : Oracle) (s : TState) (flash_base : Nat) :
    Bool × TState :=
  let s := (target_mem32_write32 or s (STM32Lx_FLASH_PECR flash_base) STM32Lx_FLASH_PECR_PELOCK).2
  let s := (target_mem32_write32 or s (STM32Lx_FLASH_PEKEYR flash_base) STM32Lx_FLASH_PEKEY1).2
  let s := (target_mem32_write32 or s (STM32Lx_FLASH_PEKEYR flash_base) STM32Lx_FLASH_PEKEY2).2
  let s := (target_mem32_write32 or s (STM32Lx_FLASH_PRGKEYR flash_base) STM32Lx_FLASH_PRGKEY1).2
  let s := (target_mem32_write32 or s (STM32Lx_FLASH_PRGKEYR flash_base) STM32Lx_FLASH_PRGKEY2).2
  let r := target_mem32_read32 or s (STM32Lx_FLASH_PECR flash_base)
  (r.1 &&& STM32Lx_FLASH_PECR_PRGLOCK == 0, r.2)

/-- stm32lx_nvm_opt_unlock: lock, present PEKEY1/2 then OPTKEY1/2, and verify
by re-reading PECR that OPTLOCK cleared. -/
def stm32lx_nvm_opt_unlock (or : Oracle) (s : TState) (flash_base : Nat) : Bool × TState :=
  let s := (target_mem32_write32 or s (STM32Lx_FLASH_PECR flash_base) STM32Lx_FLASH_PECR_PELOCK).2
  let s := (target_mem32_write32 or s (STM32Lx_FLASH_PEKEYR flash_base) STM32Lx_FLASH_PEKEY1).2
  let s := (target_mem32_write32 or s (STM32Lx_FLASH_PEKEYR flash_base) STM32Lx_FLASH_PEKEY2).2
  let s := (target_mem32_write32 or s (STM32Lx_FLASH_OPTKEYR flash_base) STM32Lx_FLASH_OPTKEY1).2
  let s := (target_mem32_write32 or s (STM32Lx_FLASH_OPTKEYR flash_base) STM32Lx_FLASH_OPTKEY2).2
  let r := target_mem32_read32 or s (STM32Lx_FLASH_PECR flash_base)
  (r.1 &&& STM32Lx_FLASH_PECR_OPTLOCK == 0, r.2)

/-- stm32lx_nvm_busy_wait: poll SR.BSY (checking for transport errors each
iteration), then re-read SR, check errors once more and test the error mask.
The C progress-print side effect is not a device access and is not traced.
`fuel` bounds the poll loop; `none` means still busy after `fuel` polls. -/
def stm32lx_nvm_busy_wait (or : Oracle) (flash_base : Nat) :
    Nat → TState → Option (Bool × TState)
  | 0, _ => none
  | fuel + 1, s =>
    let r := target_mem32_read32 or s (STM32Lx_FLASH_SR flash_base)
    if r.1 &&& STM32Lx_FLASH_SR_BSY ≠ 0 then
      let e := target_check_error or r.2
      if e.1 then some (false, e.2)
      else stm32lx_nvm_busy_wait or flash_base fuel e.2
    else
      let r2 := target_mem32_read32 or r.2 (STM32Lx_FLASH_SR flash_base)
      let e := target_check_error or r2.2
      some (!e.1 && r2.1 &&& STM32Lx_FLASH_SR_ERR_MASK == 0, e.2)

/-! ## Erase / write operations -/

/-- The erase trigger loop shared by stm32lx_flash_erase and
stm32lx_eeprom_erase: `for (offset = 0; offset < length; offset += blocksize)`
writing the first word of each block to 0.  The C loop diverges when
`blocksize = 0`; the model stops instead (no claim instantiates it so). -/
def stm32lx_erase_pages (or : Oracle) (base blocksize length offset : Nat) (s : TState) :
    TState :=
  if h : 0 < blocksize ∧ offset < length then
    stm32lx_erase_pages or base blocksize length (offset + blocksize)
      (target_mem32_write32 or s (base + offset) 0).2
  else s
termination_by length - offset
decreasing_by omega

/-- The offsets at which the erase trigger loop writes. -/
def eraseOffsets (blocksize length offset : Nat) : List Nat :=
  if h : 0 < blocksize ∧ offset < length then
    offset :: eraseOffsets blocksize length (offset + blocksize)
  else []
termination_by length - offset
decreasing_by omega

/-- stm32lx_flash_erase. -/
def stm32lx_flash_erase (or : Oracle) (fuel : Nat) (flash : target_flash_s)
    (addr length : Nat) (s : TState) : Option (Bool × TState) :=
  let flash_base := stm32lx_flash_base flash.part_id
  let _full_erase := addr == flash.start && length == flash.length
  let u := stm32lx_nvm_prog_data_unlock or s flash_base
  if !u.1 then some (false, u.2)
  else
    let s := (target_mem32_write32 or u.2 (STM32Lx_FLASH_PECR flash_base)
      (STM32Lx_FLASH_PECR_ERASE ||| STM32Lx_FLASH_PECR_PROG)).2
    let r := target_mem32_read32 or s (STM32Lx_FLASH_PECR flash_base)
    let pecr := r.1 &&& (STM32Lx_FLASH_PECR_PROG ||| STM32Lx_FLASH_PECR_ERASE)
    if pecr ≠ (STM32Lx_FLASH_PECR_PROG ||| STM32Lx_FLASH_PECR_ERASE) then some (false, r.2)
    else
      let s := (target_mem32_write32 or r.2 (STM32Lx_FLASH_SR flash_base)
        STM32Lx_FLASH_SR_ERR_MASK).2
      let s := stm32lx_erase_pages or addr flash.blocksize length 0 s
      let s := stm32lx_nvm_lock or s flash_base
      stm32lx_nvm_busy_wait or flash_base fuel s

/-- stm32lx_flash_write (the payload itself is a bulk write event). -/
def stm32lx_flash_write (or : Oracle) (fuel : Nat) (flash : target_flash_s)
    (dest length : Nat) (s : TState) : Option (Bool × TState) :=
  let flash_base := stm32lx_flash_base flash.part_id
  let u := stm32lx_nvm_prog_data_unlock or s flash_base
  if !u.1 then some (false, u.2)
  else
    match stm32lx_nvm_busy_wait or flash_base fuel u.2 with
    | none => none
    | some (false, s) => some (false, s)
    | some (true, s) =>
      let s := (target_mem32_write32 or s (STM32Lx_FLASH_PECR flash_base)
        (STM32Lx_FLASH_PECR_PROG ||| STM32Lx_FLASH_PECR_FPRG)).2
      let s := target_mem32_write or s dest length
      let s := stm32lx_nvm_lock or s flash_base
      stm32lx_nvm_busy_wait or flash_base fuel s

/-- stm32lx_eeprom_erase: the start address is masked with ~3 before the
trigger loop. -/
def stm32lx_eeprom_erase (or : Oracle) (fuel : Nat) (flash : target_flash_s)
    (addr length : Nat) (s : TState) : Option (Bool × TState) :=
  let flash_base := stm32lx_flash_base flash.part_id
  let u := stm32lx_nvm_prog_data_unlock or s flash_base
  if !u.1 then some (false, u.2)
  else
    let s := (target_mem32_write32 or u.2 (STM32Lx_FLASH_PECR flash_base)
      (STM32Lx_FLASH_PECR_ERASE ||| STM32Lx_FLASH_PECR_DATA)).2
    let r := target_mem32_read32 or s (STM32Lx_FLASH_PECR flash_base)
    let pecr := r.1 &&& (STM32Lx_FLASH_PECR_ERASE ||| STM32Lx_FLASH_PECR_DATA)
    if pecr ≠ (STM32Lx_FLASH_PECR_ERASE ||| STM32Lx_FLASH_PECR_DATA) then some (false, r.2)
    else
      let aligned_addr := addr &&& 0xfffffffc
      let s := stm32lx_erase_pages or aligned_addr flash.blocksize length 0 r.2
      let s := stm32lx_nvm_lock or s flash_base
      stm32lx_nvm_busy_wait or flash_base fuel s

/-- The word-slinging loop of stm32lx_eeprom_write.  `data` is the source
buffer viewed as the C `const uint32_t *data`: `data i` is the uint32 at word
index `i`.  The C code indexes it as `data[offset]` with `offset` the byte
offset — translated verbatim here. -/
def stm32lx_eeprom_write_words (or : Oracle) (dest : Nat) (data : Nat → Nat)
    (length offset : Nat) (s : TState) : Bool × TState :=
  if h : offset < length then
    let w := target_mem32_write32 or s (dest + offset) (data offset)
    if w.1 then (false, w.2)
    else stm32lx_eeprom_write_words or dest data length (offset + 4) w.2
  else (true, s)
termination_by length - offset
decreasing_by omega

/-- stm32lx_eeprom_write (bulk EEPROM write). -/
def stm32lx_eeprom_write (or : Oracle) (fuel : Nat) (flash : target_flash_s)
    (dest : Nat) (data : Nat → Nat) (length : Nat) (s : TState) : Option (Bool × TState) :=
  let flash_base := stm32lx_flash_base flash.part_id
  let is_stm32l1 := stm32lx_is_stm32l1 flash.part_id
  let u := stm32lx_nvm_prog_data_unlock or s flash_base
  if !u.1 then some (false, u.2)
  else
    let s := (target_mem32_write32 or u.2 (STM32Lx_FLASH_PECR flash_base)
      (if is_stm32l1 then 0 else STM32Lx_FLASH_PECR_DATA)).2
    let w := stm32lx_eeprom_write_words or dest data length 0 s
    if !w.1 then some (false, w.2)
    else
      let s := stm32lx_nvm_lock or w.2 flash_base
      stm32lx_nvm_busy_wait or flash_base fuel s

/-! ## Protected mode, mass erase, option bytes -/

/-- The plain busy loop of stm32lx_protected_mass_erase (no error check). -/
def stm32lx_protected_busy_loop (or : Oracle) (flash_base : Nat) :
    Nat → TState → Option TState
  | 0, _ => none
  | fuel + 1, s =>
    let r := target_mem32_read32 or s (STM32Lx_FLASH_SR flash_base)
    if r.1 &&& STM32Lx_FLASH_SR_BSY ≠ 0 then stm32lx_protected_busy_loop or flash_base fuel r.2
    else some r.2

/-- stm32lx_protected_mass_erase: option unlock, two magic pattern writes each
followed by an OBL_LAUNCH trigger, busy loop, re-lock, and an unconditional
`return true`. -/
def stm32lx_protected_mass_erase (or : Oracle) (fuel : Nat) (part_id : Nat) (s : TState) :
    Option (Bool × TState) :=
  let flash_base := stm32lx_flash_base part_id
  let u := stm32lx_nvm_opt_unlock or s flash_base
  if !u.1 then some (false, u.2)
  else
    let s := (target_mem32_write32 or u.2 STM32Lx_FLASH_OPT_BASE 0xffff0000).2
    let s := (target_mem32_write32 or s (STM32Lx_FLASH_PECR flash_base)
      STM32Lx_FLASH_PECR_OBL_LAUNCH).2
    let s := (target_mem32_write32 or s STM32Lx_FLASH_OPT_BASE 0xff5500aa).2
    let s := (target_mem32_write32 or s (STM32Lx_FLASH_PECR flash_base)
      STM32Lx_FLASH_PECR_OBL_LAUNCH).2
    match stm32lx_protected_busy_loop or flash_base fuel s with
    | none => none
    | some s => some (true, stm32lx_nvm_lock or s flash_base)

/-- stm32lx_option_write: set FIX mode, write the word, busy-wait. -/
def stm32lx_option_write (or : Oracle) (fuel : Nat) (part_id : Nat) (address value : Nat)
    (s : TState) : Option (Bool × TState) :=
  let flash_base := stm32lx_flash_base part_id
  let s := (target_mem32_write32 or s (STM32Lx_FLASH_PECR flash_base)
    STM32Lx_FLASH_PECR_FIX).2
  let s := (target_mem32_write32 or s address value).2
  stm32lx_nvm_busy_wait or flash_base fuel s

/-- stm32lx_eeprom_write_one: clear errors, arm FIX (| DATA on L0), write one
unit of the requested width, busy-wait. -/
def stm32lx_eeprom_write_one (or : Oracle) (fuel : Nat) (part_id : Nat)
    (address block_size value : Nat) (s : TState) : Option (Bool × TState) :=
  let flash_base := stm32lx_flash_base part_id
  let is_stm32l1 := stm32lx_is_stm32l1 part_id
  let s := (target_mem32_write32 or s (STM32Lx_FLASH_SR flash_base)
    STM32Lx_FLASH_SR_ERR_MASK).2
  let s := (target_mem32_write32 or s (STM32Lx_FLASH_PECR flash_base)
    ((if is_stm32l1 then 0 else STM32Lx_FLASH_PECR_DATA) ||| STM32Lx_FLASH_PECR_FIX)).2
  if block_size == 4 then
    stm32lx_nvm_busy_wait or flash_base fuel (target_mem32_write32 or s address value).2
  else if block_size == 2 then
    stm32lx_nvm_busy_wait or flash_base fuel (target_mem32_write16 or s address value)
  else if block_size == 1 then
    stm32lx_nvm_busy_wait or flash_base fuel (target_mem32_write8 or s address value)
  else some (false, s)

/-- stm32lx_prot_level. -/
def stm32lx_prot_level (options : Nat) : Nat :=
  let read_protection := (options >>> 0) &&& STM32Lx_FLASH_OPTR_RDPROT_MASK
  if read_protection == STM32Lx_FLASH_OPTR_RDPROT_0 then 0
  else if read_protection == STM32Lx_FLASH_OPTR_RDPROT_2 then 2
  else 1

/-- The option-value transformation of the cmd_option write path:
raw writes pass the caller's word through, non-raw writes store
`(v & 0xffff) | ((~v & 0xffff) << 16)` (`~` on uint32 is xor with
0xffffffff). -/
def stm32lx_cmd_option_val (raw_write : Bool) (val : Nat) : Nat :=
  if raw_write then val
  else (val &&& 0xffff) ||| (((val ^^^ 0xffffffff) &&& 0xffff) <<< 16)

/-- The OK/ERR validation applied to each word by the cmd_option report loop:
`(val & 0xffff) == ((~val >> 16) & 0xffff)`. -/
def stm32lx_option_report_ok (val : Nat) : Bool :=
  (val &&& 0xffff) == ((val ^^^ 0xffffffff) >>> 16) &&& 0xffff

/-! ## stm32l1 probe (protection state) -/

/-- What stm32l1_probe installs: the flash region with its vtable, the attach
and mass-erase routines, and the cached protection flag.  `optr` is the value
the probe reads from FLASH_OPTR. -/
structure L1Probe where
  flash : FlashEntry
  attach : AttachImpl
  massErase : MassEraseImpl
  isProtected : Bool
deriving DecidableEq, Repr

/-- stm32l1_probe: on a recognised AP partno, add the 512 KiB flash region
with the standard stm32lx routines, then read OPTR; when the read-protection
byte differs from level 0 substitute only the attach and mass-erase
routines. -/
def stm32l1_probe (partno optr : Nat) : Option L1Probe :=
  if partno == 0x416 || partno == 0x429 || partno == 0x427 || partno == 0x436 ||
      partno == 0x437 then
    let flash := stm32l_add_flash partno STM32Lx_FLASH_BANK_BASE 0x80000 0x100
    let prot := (optr &&& STM32Lx_FLASH_OPTR_RDPROT_MASK) != STM32Lx_FLASH_OPTR_RDPROT_0
    some { flash := flash,
           attach := if prot then .stm32lxProtectedAttach else .cortexmDefault,
           massErase := if prot then .stm32lxProtectedMassErase else .stm32lxMassErase,
           isProtected := prot }
  else none

/-! ## Console eeprom command -/

def asciiLower (c : Char) : Char :=
  if 65 ≤ c.toNat ∧ c.toNat ≤ 90 then Char.ofNat (c.toNat + 32) else c

/-- `strncasecmp(arg, lit, strlen(arg)) == 0`: arg is a case-insensitive
prefix of lit. -/
def strncasecmpMatch (arg lit : List Char) : Bool :=
  (arg.map asciiLower).isPrefixOf (lit.map asciiLower)

def byteChars : List Char := ['b', 'y', 't', 'e']

def halfwordChars : List Char := ['h', 'a', 'l', 'f', 'w', 'o', 'r', 'd']

def wordChars : List Char := ['w', 'o', 'r', 'd']

/-- stm32lx_cmd_eeprom.  The strtoul parses of argv[2]/argv[3] are elided: the
numeric arguments are passed directly as `addr0`/`val0`; `cmd` is argv[1].
Console output is traced as `Access.message` events carrying the C format
string's prefix. -/
def stm32lx_cmd_eeprom (or : Oracle) (fuel : Nat) (part_id : Nat) (argc : Nat)
    (cmd : List Char) (addr0 val0 : Nat) (s0 : TState) : Option (Bool × TState) :=
  let flash_base := stm32lx_flash_base part_id
  let u := stm32lx_nvm_prog_data_unlock or s0 flash_base
  if !u.1 then some (true, tc_printf u.2 "unable to unlock EEPROM")
  else
    let done := fun (s : TState) => some (true, stm32lx_nvm_lock or s flash_base)
    let usage := fun (s : TState) => done (tc_printf s "usage: monitor eeprom [ARGS]")
    let doWrite := fun (block_size val : Nat) (s : TState) =>
      let s := tc_printf s "writing"
      match stm32lx_eeprom_write_one or fuel part_id addr0 block_size val s with
      | none => none
      | some (ok, s) => done (if !ok then tc_printf s "eeprom write failed" else s)
    if argc == 4 then
      if addr0 < STM32Lx_FLASH_EEPROM_BASE ∨
          STM32Lx_FLASH_EEPROM_BASE + stm32lx_nvm_eeprom_size part_id ≤ addr0 then
        usage u.2
      else if strncasecmpMatch cmd byteChars then
        doWrite 1 (val0 &&& 0xff) u.2
      else if strncasecmpMatch cmd halfwordChars then
        if addr0 &&& 1 ≠ 0 then usage (tc_printf u.2 "Refusing to do unaligned write")
        else doWrite 2 (val0 &&& 0xffff) u.2
      else if strncasecmpMatch cmd wordChars then
        if addr0 &&& 3 ≠ 0 then usage (tc_printf u.2 "Refusing to do unaligned write")
        else doWrite 4 val0 u.2
      else usage u.2
    else usage u.2

/-! ## LPC546xx driver -/

def LPC546XX_WDT_MODE : Nat := 0x4000c000
def LPC546XX_WDT_CNT : Nat := 0x4000c004
def LPC546XX_WDT_FEED : Nat := 0x4000c008
def LPC546XX_WDT_PERIOD_MAX : Nat := 0xffffff
def LPC546XX_WDT_PROTECT : Nat := 1 <<< 4

def LPC546XX_MAINCLKSELA : Nat := 0x40000280
def LPC546XX_MAINCLKSELB : Nat := 0x40000284
def LPC546XX_AHBCLKDIV : Nat := 0x40000380
def LPC546XX_FLASHCFG : Nat := 0x40000400

/-- Events of the LPC546xx driver (its transport goes through the same
target layer, abstracted at the call level the source uses). -/
inductive LEvent where
  | targetReset
  | haltResume (freeRun : Bool)
  | cortexmAttach
  | memRead32 (addr value : Nat)
  | memWrite32 (addr value : Nat)
deriving DecidableEq, Repr

/-- lpc546xx_reset_attach: full reset, one halt-resume step with no free run,
then the debug attach handshake. -/
def lpc546xx_reset_attach : List LEvent :=
  [LEvent.targetReset, LEvent.haltResume false, LEvent.cortexmAttach]

/-- lpc546xx_cmd_reset_attach: ignores its arguments and runs
lpc546xx_reset_attach. -/
def lpc546xx_cmd_reset_attach : Bool × List LEvent :=
  (true, lpc546xx_reset_attach)

/-- lpc546xx_wdt_set_period; `wdtMode` is the value read from WDT_MODE. -/
def lpc546xx_wdt_set_period (wdtMode : Nat) : List LEvent :=
  LEvent.memRead32 LPC546XX_WDT_MODE wdtMode ::
    (if wdtMode ≠ 0 ∧ wdtMode &&& LPC546XX_WDT_PROTECT = 0 then
      [LEvent.memWrite32 LPC546XX_WDT_CNT LPC546XX_WDT_PERIOD_MAX]
    else [])

/-- lpc546xx_flash_init: reset-attach, watchdog period setup, clock and flash
timing configuration. -/
def lpc546xx_flash_init (wdtMode : Nat) : Bool × List LEvent :=
  (true,
    lpc546xx_reset_attach ++ lpc546xx_wdt_set_period wdtMode ++
      [LEvent.memWrite32 LPC546XX_MAINCLKSELA 0, LEvent.memWrite32 LPC546XX_MAINCLKSELB 0,
        LEvent.memWrite32 LPC546XX_AHBCLKDIV 0, LEvent.memWrite32 LPC546XX_FLASHCFG 0x1a])

/-- lpc546xx_mass_erase: the C code stores lpc546xx_flash_erase's `bool`
result in `const int result` and then treats 0 as success.  `eraseOk` is the
boolean returned by lpc546xx_flash_erase on the full region. -/
def lpc546xx_mass_erase (eraseOk : Bool) : Bool × List String :=
  let result : Int := if eraseOk then 1 else 0
  let msgs := if result ≠ 0 then ["Error erasing flash: %d"] else []
  (result == 0, msgs)

/-- lpc546xx_cmd_erase_sector.  `flashEraseModel` stands for
lpc546xx_flash_erase (whose body lpc_flash_erase lives outside this file's
sources); it is irrelevant on the argc <= 1 path. -/
def lpc546xx_cmd_erase_sector (argc sectorArg blocksize : Nat)
    (flashEraseModel : Nat → Nat → Bool × List LEvent) : Bool × List LEvent :=
  if argc > 1 then
    let sector_addr := sectorArg * blocksize
    flashEraseModel sector_addr 1
  else (true, [])

/-- lpc546xx_cmd_write_sector.  The erase and magic-vector write callees live
outside this file's sources and are passed as models; both are irrelevant on
the argc <= 1 path. -/
def lpc546xx_cmd_write_sector (argc sectorArg blocksize : Nat)
    (flashEraseModel : Nat → Nat → Bool × List LEvent)
    (flashWriteModel : Nat → List Nat → Bool × List LEvent) : Bool × List LEvent :=
  if argc > 1 then
    let sector_addr := sectorArg * blocksize
    let e := flashEraseModel sector_addr 1
    if !e.1 then (false, e.2)
    else
      let buf := (List.range blocksize).map fun i => i &&& 0xff
      let w := flashWriteModel sector_addr buf
      (w.1, e.2 ++ w.2)
  else (true, [])

/-! ## Trace observer lemmas -/

theorem writesOf_append (a b : List Access) :
    writesOf (a ++ b) = writesOf a ++ writesOf b := by
  simp [writesOf]

theorem readsTo_append (addr : Nat) (a b : List Access) :
    readsTo addr (a ++ b) = readsTo addr a ++ readsTo addr b := by
  simp [readsTo]

theorem msgsOf_append (a b : List Access) :
    msgsOf (a ++ b) = msgsOf a ++ msgsOf b := by
  simp [msgsOf]

/-! ## Busy-wait invariants -/

/-- A successful (or failed) busy-wait only appends reads and error checks:
the register writes of the trace are unchanged. -/
theorem stm32lx_nvm_busy_wait_writes (or : Oracle) (fb : Nat) :
    ∀ (fuel : Nat) (s : TState) (b : Bool) (s2 : TState),
      stm32lx_nvm_busy_wait or fb fuel s = some (b, s2) →
      writesOf s2.trace = writesOf s.trace := by
  intro fuel
  induction fuel with
  | zero => intro s b s2 h; simp [stm32lx_nvm_busy_wait] at h
  | succ n ih =>
    intro s b s2 h
    simp only [stm32lx_nvm_busy_wait, target_mem32_read32, target_check_error] at h
    split at h
    · split at h
      · simp only [Option.some.injEq, Prod.mk.injEq] at h
        obtain ⟨-, hs2⟩ := h
        subst hs2
        simp [writesOf_append, writesOf]
      · rw [ih _ _ _ h]
        simp [writesOf_append, writesOf]
    · simp only [Option.some.injEq, Prod.mk.injEq] at h
      obtain ⟨-, hs2⟩ := h
      subst hs2
      simp [writesOf_append, writesOf]

/-- The protected-mode busy loop only appends reads of the status register:
register writes are unchanged and reads of any other address are unchanged. -/
theorem stm32lx_protected_busy_loop_trace (or : Oracle) (fb : Nat) :
    ∀ (fuel : Nat) (s s2 : TState),
      stm32lx_protected_busy_loop or fb fuel s = some s2 →
      writesOf s2.trace = writesOf s.trace ∧
        ∀ a, a ≠ STM32Lx_FLASH_SR fb → readsTo a s2.trace = readsTo a s.trace := by
  intro fuel
  induction fuel with
  | zero => intro s s2 h; simp [stm32lx_protected_busy_loop] at h
  | succ n ih =>
    intro s s2 h
    simp only [stm32lx_protected_busy_loop, target_mem32_read32] at h
    split at h
    · obtain ⟨hw, hr⟩ := ih _ _ h
      refine ⟨by rw [hw]; simp [writesOf_append, writesOf], fun a ha => ?_⟩
      rw [hr a ha]
      have hne := Ne.symm ha
      simp [readsTo_append, readsTo, hne]
    · simp only [Option.some.injEq] at h
      subst h
      refine ⟨by simp [writesOf_append, writesOf], fun a ha => ?_⟩
      have hne := Ne.symm ha
      simp [readsTo_append, readsTo, hne]

/-! ## Erase trigger loop characterisation -/

theorem stm32lx_erase_pages_trace (or : Oracle) (base blocksize length offset : Nat)
    (s : TState) :
    (stm32lx_erase_pages or base blocksize length offset s).trace =
      s.trace ++ (eraseOffsets blocksize length offset).map
        (fun o => Access.write32 (base + o) 0) := by
  by_cases h : 0 < blocksize ∧ offset < length
  · rw [stm32lx_erase_pages, eraseOffsets, dif_pos h, dif_pos h,
      stm32lx_erase_pages_trace or base blocksize length (offset + blocksize)]
    simp [target_mem32_write32]
  · rw [stm32lx_erase_pages, eraseOffsets, dif_neg h, dif_neg h]
    simp
termination_by length - offset
decreasing_by omega

/-- With block size 4 the trigger offsets are 0, 4, ..., up to (excluding)
the requested length rounded up to a word. -/
theorem eraseOffsets_four (length offset : Nat) :
    eraseOffsets 4 length offset =
      (List.range ((length - offset + 3) / 4)).map (fun k => offset + k * 4) := by
  by_cases h : offset < length
  · rw [eraseOffsets, dif_pos ⟨by omega, h⟩, eraseOffsets_four length (offset + 4)]
    have hn : (length - offset + 3) / 4 = (length - (offset + 4) + 3) / 4 + 1 := by omega
    rw [hn, List.range_succ_eq_map, List.map_cons, List.map_map]
    refine congrArg₂ List.cons (by omega) ?_
    refine List.map_congr_left fun a _ => ?_
    simp [Function.comp]
    omega
  · rw [eraseOffsets, dif_neg (by omega)]
    have hn : (length - offset + 3) / 4 = 0 := by omega
    rw [hn]
    simp
termination_by length - offset
decreasing_by omega

/-! ## Bit-level helper lemmas -/

theorem and_ffff_eq_mod (n : Nat) : n &&& 0xffff = n % 65536 := by
  have h : (0xffff : Nat) = 2 ^ 16 - 1 := by norm_num
  rw [h, Nat.and_pow_two_sub_one_eq_mod]

theorem and_three_eq_mod (n : Nat) : n &&& 3 = n % 4 := by
  have h : (3 : Nat) = 2 ^ 2 - 1 := by norm_num
  rw [h, Nat.and_pow_two_sub_one_eq_mod]

theorem lor_shl16_and_ffff (a b : Nat) (ha : a < 65536) :
    (a ||| b <<< 16) &&& 0xffff = a := by
  apply Nat.eq_of_testBit_eq
  intro i
  have hm : (0xffff : Nat) = 2 ^ 16 - 1 := by norm_num
  simp only [Nat.testBit_and, Nat.testBit_or, Nat.testBit_shiftLeft, hm,
    Nat.testBit_two_pow_sub_one]
  by_cases hi : i < 16
  · have h16 : ¬(16 ≤ i) := by omega
    simp [hi, h16]
  · have hlt : a < 2 ^ i := lt_of_lt_of_le ha (by
      calc (65536 : Nat) = 2 ^ 16 := by norm_num
      _ ≤ 2 ^ i := Nat.pow_le_pow_right (by norm_num) (by omega))
    simp [hi, Nat.testBit_lt_two_pow hlt]

theorem lor_shl16_shr16 (a b : Nat) (ha : a < 65536) :
    (a ||| b <<< 16) >>> 16 = b := by
  apply Nat.eq_of_testBit_eq
  intro i
  have hlt : a < 2 ^ (16 + i) := lt_of_lt_of_le ha (by
    calc (65536 : Nat) = 2 ^ 16 := by norm_num
    _ ≤ 2 ^ (16 + i) := Nat.pow_le_pow_right (by norm_num) (by omega))
  have h16 : 16 ≤ 16 + i := by omega
  simp [Nat.testBit_shiftRight, Nat.testBit_or, Nat.testBit_shiftLeft,
    Nat.testBit_lt_two_pow hlt, h16]

theorem xor_mask32_and_ffff (v : Nat) :
    (v ^^^ 0xffffffff) &&& 0xffff = (v &&& 0xffff) ^^^ 0xffff := by
  apply Nat.eq_of_testBit_eq
  intro i
  have h32 : (0xffffffff : Nat) = 2 ^ 32 - 1 := by norm_num
  have h16 : (0xffff : Nat) = 2 ^ 16 - 1 := by norm_num
  simp only [Nat.testBit_and, Nat.testBit_xor, h32, h16, Nat.testBit_two_pow_sub_one]
  by_cases hi : i < 16
  · have h32i : i < 32 := by omega
    simp [hi, h32i]
  · simp [hi]

theorem shr16_of_xor_mask32 (w : Nat) (hw : w < 2 ^ 32) :
    ((w ^^^ 0xffffffff) >>> 16) &&& 0xffff = (w >>> 16) ^^^ 0xffff := by
  apply Nat.eq_of_testBit_eq
  intro i
  have h32 : (0xffffffff : Nat) = 2 ^ 32 - 1 := by norm_num
  have h16 : (0xffff : Nat) = 2 ^ 16 - 1 := by norm_num
  simp only [Nat.testBit_and, Nat.testBit_xor, Nat.testBit_shiftRight, h32, h16,
    Nat.testBit_two_pow_sub_one]
  by_cases hi : i < 16
  · have h32i : 16 + i < 32 := by omega
    simp [hi, h32i]
  · have hlt : w < 2 ^ (16 + i) := lt_of_lt_of_le hw
      (Nat.pow_le_pow_right (by norm_num) (by omega))
    have h32i : ¬(16 + i < 32) := by omega
    simp [hi, Nat.testBit_lt_two_pow hlt, h32i]

theorem and_fffffffc_eq (addr : Nat) (h : addr < 2 ^ 32) :
    addr &&& 0xfffffffc = addr / 4 * 4 := by
  have hrw : addr / 4 * 4 = (addr >>> 2) <<< 2 := by
    rw [Nat.shiftRight_eq_div_pow, Nat.shiftLeft_eq]
  rw [hrw]
  apply Nat.eq_of_testBit_eq
  intro i
  have hmask : (0xfffffffc : Nat) = (2 ^ 30 - 1) <<< 2 := by
    rw [Nat.shiftLeft_eq]
    norm_num
  simp only [Nat.testBit_and, hmask, Nat.testBit_shiftLeft, Nat.testBit_shiftRight,
    Nat.testBit_two_pow_sub_one]
  by_cases h2 : 2 ≤ i
  · by_cases h32 : i < 32
    · have hi : 2 + (i - 2) = i := by omega
      have h30 : i - 2 < 30 := by omega
      simp [h2, h30, hi]
    · have hlt : addr < 2 ^ i := lt_of_lt_of_le h
        (Nat.pow_le_pow_right (by norm_num) (by omega))
      have hi : 2 + (i - 2) = i := by omega
      have h30 : ¬(i - 2 < 30) := by omega
      simp [h2, h30, hi, Nat.testBit_lt_two_pow hlt]
  · have h2n : ¬(2 ≤ i) := h2
    simp [h2n]

/-! ## Concrete oracles and regions used to evaluate the driver -/

/-- A device whose every read returns 0 and whose transport never fails:
unlock verifications succeed (the lock bits read back clear) and the
controller is immediately idle with no error flags. -/
def oracleZeros : Oracle :=
  { readResp := fun _ => 0, errResp := fun _ => false, writeFail := fun _ => false }

/-- A device whose PECR reads always show PRGLOCK still set: the prog/data
unlock verification fails (as on a read-protected part). -/
def oracleLockedPRG : Oracle :=
  { readResp := fun _ => STM32Lx_FLASH_PECR_PRGLOCK, errResp := fun _ => false,
    writeFail := fun _ => false }

/-- A device on which the EEPROM erase succeeds: the unlock verification read
returns 0, the arm verification read returns ERASE|DATA, and all later status
reads show idle and clean. -/
def oracleEepromEraseOk : Oracle :=
  { readResp := fun n =>
      if n == 1 then STM32Lx_FLASH_PECR_ERASE ||| STM32Lx_FLASH_PECR_DATA else 0,
    errResp := fun _ => false, writeFail := fun _ => false }

/-- The Cat-1 STM32L0 program-flash bank as registered by stm32l0_probe. -/
def l0FlashBank : target_flash_s :=
  (stm32l_add_flash 0x457 STM32Lx_FLASH_BANK_BASE STM32L0_FLASH_BANK_SIZE
    STM32L0_FLASH_PAGE_SIZE).region

/-- The STM32L0 EEPROM region as registered by stm32l0_probe. -/
def l0Eeprom : target_flash_s :=
  (stm32l_add_eeprom 0x457 STM32Lx_EEPROM_BASE 0x1800).region

/-- The STM32L1 flash region as registered by stm32l1_probe. -/
def l1FlashBank : target_flash_s :=
  (stm32l_add_flash 0x416 STM32Lx_FLASH_BANK_BASE 0x80000 0x100).region

/-! ## Claim theorems -/

/-- C1: the claim states every operation that successfully unlocks PECR
re-locks it on every path.  Evaluating stm32lx_flash_erase on a device whose
unlock verification succeeds (PECR reads back 0) but whose arm verification
read does not show ERASE|PROG latched: the function returns false after six
register writes — the two PRGKEYR key writes show the unlock ran — and the
last write to PECR is the arm value, not PELOCK, so the controller is left
unlocked. -/
theorem c1_flash_erase_arm_fail_leaves_pecr_unlocked :
    (stm32lx_flash_erase oracleZeros 8 l0FlashBank STM32Lx_FLASH_BANK_BASE 128
        TState.start).map
        (fun p => (p.1, lastWriteLocked (STM32Lx_FLASH_PECR STM32L0_FLASH_BASE) p.2.trace,
          writesOf p.2.trace)) =
      some (false, false,
        [(STM32Lx_FLASH_PECR STM32L0_FLASH_BASE, STM32Lx_FLASH_PECR_PELOCK),
         (STM32Lx_FLASH_PEKEYR STM32L0_FLASH_BASE, STM32Lx_FLASH_PEKEY1),
         (STM32Lx_FLASH_PEKEYR STM32L0_FLASH_BASE, STM32Lx_FLASH_PEKEY2),
         (STM32Lx_FLASH_PRGKEYR STM32L0_FLASH_BASE, STM32Lx_FLASH_PRGKEY1),
         (STM32Lx_FLASH_PRGKEYR STM32L0_FLASH_BASE, STM32Lx_FLASH_PRGKEY2),
         (STM32Lx_FLASH_PECR STM32L0_FLASH_BASE,
           STM32Lx_FLASH_PECR_ERASE ||| STM32Lx_FLASH_PECR_PROG)]) := by
  decide

/-- C2: the claim states lpc546xx_mass_erase returns success exactly when the
full-region lpc546xx_flash_erase reports success.  The C code stores the
erase's `bool` into `const int result` and returns `result == 0`, inverting
the outcome: a successful erase yields a failed mass_erase (with an error
message) and a failed erase yields a successful mass_erase. -/
theorem c2_lpc546xx_mass_erase_inverted :
    (lpc546xx_mass_erase true).1 = false ∧ (lpc546xx_mass_erase true).2 ≠ [] ∧
      (lpc546xx_mass_erase false).1 = true := by
  decide

/-- C5: the claim states the bulk EEPROM write stores source word i at
destination word i.  The C loop indexes the `const uint32_t *` source with the
byte offset (`data[offset]`), so destination word 1 receives source word 4:
writing 8 bytes of the buffer whose word i holds the value i stores 0 then 4,
not 0 then 1. -/
theorem c5_eeprom_write_misindexes_source :
    (stm32lx_eeprom_write oracleZeros 4 l0Eeprom STM32Lx_EEPROM_BASE (fun i => i) 8
        TState.start).map (fun p => (p.1, writesOf p.2.trace)) =
      some (true,
        [(STM32Lx_FLASH_PECR STM32L0_FLASH_BASE, STM32Lx_FLASH_PECR_PELOCK),
         (STM32Lx_FLASH_PEKEYR STM32L0_FLASH_BASE, STM32Lx_FLASH_PEKEY1),
         (STM32Lx_FLASH_PEKEYR STM32L0_FLASH_BASE, STM32Lx_FLASH_PEKEY2),
         (STM32Lx_FLASH_PRGKEYR STM32L0_FLASH_BASE, STM32Lx_FLASH_PRGKEY1),
         (STM32Lx_FLASH_PRGKEYR STM32L0_FLASH_BASE, STM32Lx_FLASH_PRGKEY2),
         (STM32Lx_FLASH_PECR STM32L0_FLASH_BASE, STM32Lx_FLASH_PECR_DATA),
         (STM32Lx_EEPROM_BASE, 0),
         (STM32Lx_EEPROM_BASE + 4, 4),
         (STM32Lx_FLASH_PECR STM32L0_FLASH_BASE, STM32Lx_FLASH_PECR_PELOCK)]) := by
  simp [stm32lx_eeprom_write, stm32lx_eeprom_write_words, stm32lx_nvm_prog_data_unlock,
    stm32lx_nvm_lock, stm32lx_nvm_busy_wait, target_mem32_write32, target_mem32_read32,
    target_check_error, TState.start, writesOf, oracleZeros, l0Eeprom, stm32l_add_eeprom,
    stm32lx_flash_base, stm32lx_is_stm32l1, STM32Lx_FLASH_PECR, STM32Lx_FLASH_PEKEYR,
    STM32Lx_FLASH_PRGKEYR, STM32Lx_FLASH_SR, STM32L0_FLASH_BASE, STM32Lx_EEPROM_BASE,
    STM32Lx_FLASH_PECR_PELOCK, STM32Lx_FLASH_PECR_PRGLOCK, STM32Lx_FLASH_PECR_DATA,
    STM32Lx_FLASH_PEKEY1, STM32Lx_FLASH_PEKEY2, STM32Lx_FLASH_PRGKEY1,
    STM32Lx_FLASH_PRGKEY2, STM32Lx_FLASH_SR_BSY, STM32Lx_FLASH_SR_ERR_MASK,
    STM32Lx_FLASH_SR_WRPERR, STM32Lx_FLASH_SR_PGAERR, STM32Lx_FLASH_SR_SIZERR,
    STM32Lx_FLASH_SR_NOTZEROERR]

/-- C9: the operator-invoked reset_attach command and the implicit
lpc546xx_flash_init path both run lpc546xx_reset_attach, whose event sequence
is exactly: full system reset, one halt-resume step with no free run, then
the cortexm attach handshake; flash_init's trace begins with exactly that
three-step sequence, for any watchdog mode read value. -/
theorem c9_reset_attach_shared_sequence (wdtMode : Nat) :
    lpc546xx_cmd_reset_attach.2 = lpc546xx_reset_attach ∧
      (lpc546xx_flash_init wdtMode).2.take 3 = lpc546xx_reset_attach ∧
      lpc546xx_reset_attach =
        [LEvent.targetReset, LEvent.haltResume false, LEvent.cortexmAttach] := by
  exact ⟨rfl, rfl, rfl⟩

/-- C10: with no sector argument (argc <= 1), both console sector commands
return success and produce no device access at all, whatever the underlying
erase/write routines would do. -/
theorem c10_cmd_sector_no_arg_no_op (argc sectorArg blocksize : Nat)
    (eraseModel : Nat → Nat → Bool × List LEvent)
    (writeModel : Nat → List Nat → Bool × List LEvent) (h : argc ≤ 1) :
    lpc546xx_cmd_erase_sector argc sectorArg blocksize eraseModel = (true, []) ∧
      lpc546xx_cmd_write_sector argc sectorArg blocksize eraseModel writeModel =
        (true, []) := by
  have hng : ¬(argc > 1) := by omega
  constructor
  · rw [lpc546xx_cmd_erase_sector, if_neg hng]
  · rw [lpc546xx_cmd_write_sector, if_neg hng]

/-- Witness for C10 at argc = 1 with non-trivial underlying routines. -/
theorem c10_cmd_sector_no_arg_no_op_witness :
    (1 : Nat) ≤ 1 ∧
      lpc546xx_cmd_erase_sector 1 3 0x8000 (fun _ _ => (false, [LEvent.targetReset])) =
        (true, []) ∧
      lpc546xx_cmd_write_sector 1 3 0x8000 (fun _ _ => (false, [LEvent.targetReset]))
          (fun _ _ => (false, [LEvent.targetReset])) = (true, []) := by
  refine ⟨le_refl 1, ?_⟩
  exact c10_cmd_sector_no_arg_no_op 1 3 0x8000 (fun _ _ => (false, [LEvent.targetReset]))
    (fun _ _ => (false, [LEvent.targetReset])) (le_refl 1)

/-- C3 counterexample: the claim states protected mass_erase reports success
only if the device is confirmed unprotected afterward.  On a device that
accepts the option unlock and immediately reports idle, the routine returns
true while its trace contains no read of the option register (OPTR) and no
read of the option bytes at all — nothing confirms the device became
unprotected. -/
theorem c3_counterexample_success_without_confirmation :
    (stm32lx_protected_mass_erase oracleZeros 2 0x416 TState.start).map
        (fun p => (p.1, readsTo (STM32Lx_FLASH_OPTR STM32L1_FLASH_BASE) p.2.trace,
          readsTo STM32Lx_FLASH_OPT_BASE p.2.trace)) =
      some (true, [], []) := by
  decide

/-- C4 counterexample: the claim states erase on a Protected device fails
without performing any device register access.  On a protected device (PECR
reads back with PRGLOCK set) stm32lx_flash_erase — which remains the region's
erase routine after stm32l1_probe — fails, but only after six device register
accesses (the lock write, the four key writes and the verification read). -/
theorem c4_counterexample_erase_attempts_device_access :
    (stm32lx_flash_erase oracleLockedPRG 2 l1FlashBank STM32Lx_FLASH_BANK_BASE 0x100
        TState.start).map (fun p => (p.1, p.2.trace.length)) =
      some (false, 6) := by
  decide

/-- C6 counterexample: the claim states that for a misaligned half-word
EEPROM write no device register access occurs before the rejection.  Running
the command on an odd in-range address: it is rejected (usage follows), but
six register accesses — the control-register unlock performed at command
entry — precede the "Refusing to do unaligned write" message. -/
theorem c6_counterexample_access_before_rejection :
    (stm32lx_cmd_eeprom oracleZeros 2 0x457 4 halfwordChars 0x08080001 0x1234
        TState.start).map
        (fun p => (p.1,
          decide (regAccessesBeforeMsg "Refusing to do unaligned write" p.2.trace = 0))) =
      some (true, false) := by
  decide

/-- C3 (amended): for a Protected device, mass_erase runs exactly the
option-wipe recovery — option unlock, the 0xffff0000 then 0xff5500aa magic
patterns each followed by an OBL_LAUNCH trigger, a busy wait and a final
re-lock — and reports success whenever the option unlock verified and the
busy wait ended, performing no confirmation read: the trace reads neither the
option register nor the option bytes. -/
theorem c3_protected_mass_erase_wipes_without_confirmation (or : Oracle) (fuel : Nat)
    (h0 : or.readResp 0 &&& STM32Lx_FLASH_PECR_OPTLOCK = 0)
    (hs : (stm32lx_protected_mass_erase or fuel 0x416 TState.start).isSome = true) :
    (stm32lx_protected_mass_erase or fuel 0x416 TState.start).map
        (fun p => (p.1, writesOf p.2.trace,
          readsTo (STM32Lx_FLASH_OPTR STM32L1_FLASH_BASE) p.2.trace,
          readsTo STM32Lx_FLASH_OPT_BASE p.2.trace)) =
      some (true,
        [(STM32Lx_FLASH_PECR STM32L1_FLASH_BASE, STM32Lx_FLASH_PECR_PELOCK),
         (STM32Lx_FLASH_PEKEYR STM32L1_FLASH_BASE, STM32Lx_FLASH_PEKEY1),
         (STM32Lx_FLASH_PEKEYR STM32L1_FLASH_BASE, STM32Lx_FLASH_PEKEY2),
         (STM32Lx_FLASH_OPTKEYR STM32L1_FLASH_BASE, STM32Lx_FLASH_OPTKEY1),
         (STM32Lx_FLASH_OPTKEYR STM32L1_FLASH_BASE, STM32Lx_FLASH_OPTKEY2),
         (STM32Lx_FLASH_OPT_BASE, 0xffff0000),
         (STM32Lx_FLASH_PECR STM32L1_FLASH_BASE, STM32Lx_FLASH_PECR_OBL_LAUNCH),
         (STM32Lx_FLASH_OPT_BASE, 0xff5500aa),
         (STM32Lx_FLASH_PECR STM32L1_FLASH_BASE, STM32Lx_FLASH_PECR_OBL_LAUNCH),
         (STM32Lx_FLASH_PECR STM32L1_FLASH_BASE, STM32Lx_FLASH_PECR_PELOCK)],
        [], []) := by
  obtain ⟨p, hp⟩ := Option.isSome_iff_exists.mp hs
  rw [hp, Option.map_some']
  simp only [stm32lx_protected_mass_erase, stm32lx_nvm_opt_unlock, stm32lx_nvm_lock,
    target_mem32_write32, target_mem32_read32, TState.start, stm32lx_flash_base,
    stm32lx_is_stm32l1] at hp
  rw [h0] at hp
  simp at hp
  split at hp
  · exact absurd hp (by simp)
  next s1 heq =>
    obtain ⟨hw, hr⟩ := stm32lx_protected_busy_loop_trace or _ fuel _ _ heq
    injection hp with hp2
    subst hp2
    have hne1 : ¬(STM32Lx_FLASH_PECR STM32L1_FLASH_BASE =
        STM32Lx_FLASH_OPTR STM32L1_FLASH_BASE) := by decide
    have hne2 : ¬(STM32Lx_FLASH_PECR STM32L1_FLASH_BASE =
        STM32Lx_FLASH_OPT_BASE) := by decide
    have hrOptr := hr (STM32Lx_FLASH_OPTR STM32L1_FLASH_BASE) (by decide)
    have hrOptBase := hr STM32Lx_FLASH_OPT_BASE (by decide)
    simp only [stm32lx_nvm_lock, target_mem32_write32, Option.some.injEq, Prod.mk.injEq]
    refine ⟨trivial, ?_, ?_, ?_⟩
    · rw [writesOf_append, hw]
      simp [writesOf]
    · rw [readsTo_append, hrOptr]
      simp [readsTo, hne1]
    · rw [readsTo_append, hrOptBase]
      simp [readsTo, hne2]

/-- Witness for C3: a device accepting the option unlock and idling at once. -/
theorem c3_protected_mass_erase_wipes_without_confirmation_witness :
    oracleZeros.readResp 0 &&& STM32Lx_FLASH_PECR_OPTLOCK = 0 ∧
      (stm32lx_protected_mass_erase oracleZeros 2 0x416 TState.start).map
          (fun p => (p.1, writesOf p.2.trace,
            readsTo (STM32Lx_FLASH_OPTR STM32L1_FLASH_BASE) p.2.trace,
            readsTo STM32Lx_FLASH_OPT_BASE p.2.trace)) =
        some (true,
          [(STM32Lx_FLASH_PECR STM32L1_FLASH_BASE, STM32Lx_FLASH_PECR_PELOCK),
           (STM32Lx_FLASH_PEKEYR STM32L1_FLASH_BASE, STM32Lx_FLASH_PEKEY1),
           (STM32Lx_FLASH_PEKEYR STM32L1_FLASH_BASE, STM32Lx_FLASH_PEKEY2),
           (STM32Lx_FLASH_OPTKEYR STM32L1_FLASH_BASE, STM32Lx_FLASH_OPTKEY1),
           (STM32Lx_FLASH_OPTKEYR STM32L1_FLASH_BASE, STM32Lx_FLASH_OPTKEY2),
           (STM32Lx_FLASH_OPT_BASE, 0xffff0000),
           (STM32Lx_FLASH_PECR STM32L1_FLASH_BASE, STM32Lx_FLASH_PECR_OBL_LAUNCH),
           (STM32Lx_FLASH_OPT_BASE, 0xff5500aa),
           (STM32Lx_FLASH_PECR STM32L1_FLASH_BASE, STM32Lx_FLASH_PECR_OBL_LAUNCH),
           (STM32Lx_FLASH_PECR STM32L1_FLASH_BASE, STM32Lx_FLASH_PECR_PELOCK)],
          [], []) :=
  ⟨by decide,
    c3_protected_mass_erase_wipes_without_confirmation oracleZeros 2 (by decide) (by decide)⟩

/-- C4 (amended): on a recognised part whose option register shows a
read-protection level other than 0, stm32l1_probe substitutes only the attach
and mass-erase routines, leaving the flash region and its
erase/write vtable exactly as in the Open state; the retained
stm32lx_flash_erase, run against a device whose PECR keeps PRGLOCK set, fails
— but only after six device register accesses (the unlock attempt), not
before any access. -/
theorem c4_protected_probe_swaps_only_attach_and_mass_erase (partno optr : Nat)
    (or : Oracle) (fuel addr length : Nat)
    (hpart : partno = 0x416 ∨ partno = 0x429 ∨ partno = 0x427 ∨ partno = 0x436 ∨
      partno = 0x437)
    (hprot : optr &&& STM32Lx_FLASH_OPTR_RDPROT_MASK ≠ STM32Lx_FLASH_OPTR_RDPROT_0)
    (hlock : or.readResp 0 &&& STM32Lx_FLASH_PECR_PRGLOCK ≠ 0) :
    (stm32l1_probe partno optr).map
        (fun p => (p.isProtected, p.attach, p.massErase, p.flash)) =
      some (true, AttachImpl.stm32lxProtectedAttach,
        MassEraseImpl.stm32lxProtectedMassErase,
        stm32l_add_flash partno STM32Lx_FLASH_BANK_BASE 0x80000 0x100) ∧
      (∀ optr2, optr2 &&& STM32Lx_FLASH_OPTR_RDPROT_MASK = STM32Lx_FLASH_OPTR_RDPROT_0 →
        (stm32l1_probe partno optr2).map
            (fun p => (p.isProtected, p.attach, p.massErase, p.flash)) =
          some (false, AttachImpl.cortexmDefault, MassEraseImpl.stm32lxMassErase,
            stm32l_add_flash partno STM32Lx_FLASH_BANK_BASE 0x80000 0x100)) ∧
      (stm32lx_flash_erase or fuel
          (stm32l_add_flash partno STM32Lx_FLASH_BANK_BASE 0x80000 0x100).region addr
          length TState.start).map (fun q => (q.1, q.2.trace.length)) =
        some (false, 6) := by
  have hcond : (partno == 0x416 || partno == 0x429 || partno == 0x427 ||
      partno == 0x436 || partno == 0x437) = true := by
    rcases hpart with h | h | h | h | h <;> subst h <;> decide
  have hprotb : (optr &&& STM32Lx_FLASH_OPTR_RDPROT_MASK !=
      STM32Lx_FLASH_OPTR_RDPROT_0) = true := bne_iff_ne.mpr hprot
  have hb : (or.readResp 0 &&& STM32Lx_FLASH_PECR_PRGLOCK == 0) = false :=
    beq_eq_false_iff_ne.mpr hlock
  refine ⟨?_, ?_, ?_⟩
  · simp [stm32l1_probe, hcond, hprotb]
  · intro optr2 h2
    simp [stm32l1_probe, hcond, h2]
  · simp [stm32lx_flash_erase, stm32lx_nvm_prog_data_unlock, target_mem32_write32,
      target_mem32_read32, TState.start, hb, stm32l_add_flash]

/-- Witness for C4 on a Cat-1 STM32L1 with a wiped option register and a
device refusing the unlock. -/
theorem c4_protected_probe_swaps_only_attach_and_mass_erase_witness :
    ((0x416 : Nat) = 0x416 ∨ (0x416 : Nat) = 0x429 ∨ (0x416 : Nat) = 0x427 ∨
        (0x416 : Nat) = 0x436 ∨ (0x416 : Nat) = 0x437) ∧
      (0 : Nat) &&& STM32Lx_FLASH_OPTR_RDPROT_MASK ≠ STM32Lx_FLASH_OPTR_RDPROT_0 ∧
      oracleLockedPRG.readResp 0 &&& STM32Lx_FLASH_PECR_PRGLOCK ≠ 0 ∧
      ((stm32l1_probe 0x416 0).map
          (fun p => (p.isProtected, p.attach, p.massErase, p.flash)) =
        some (true, AttachImpl.stm32lxProtectedAttach,
          MassEraseImpl.stm32lxProtectedMassErase,
          stm32l_add_flash 0x416 STM32Lx_FLASH_BANK_BASE 0x80000 0x100) ∧
        (∀ optr2, optr2 &&& STM32Lx_FLASH_OPTR_RDPROT_MASK = STM32Lx_FLASH_OPTR_RDPROT_0 →
          (stm32l1_probe 0x416 optr2).map
              (fun p => (p.isProtected, p.attach, p.massErase, p.flash)) =
            some (false, AttachImpl.cortexmDefault, MassEraseImpl.stm32lxMassErase,
              stm32l_add_flash 0x416 STM32Lx_FLASH_BANK_BASE 0x80000 0x100)) ∧
        (stm32lx_flash_erase oracleLockedPRG 2
            (stm32l_add_flash 0x416 STM32Lx_FLASH_BANK_BASE 0x80000 0x100).region
            STM32Lx_FLASH_BANK_BASE 0x100 TState.start).map
            (fun q => (q.1, q.2.trace.length)) = some (false, 6)) :=
  ⟨Or.inl rfl, by decide, by decide,
    c4_protected_probe_swaps_only_attach_and_mass_erase 0x416 0 oracleLockedPRG 2
      STM32Lx_FLASH_BANK_BASE 0x100 (Or.inl rfl) (by decide) (by decide)⟩

/-- Swapping sides of a xor equation: a differs from b ^^^ c exactly when b
differs from a ^^^ c. -/
theorem xor_swap_ne (a b c : Nat) : a ≠ b ^^^ c ↔ b ≠ a ^^^ c := by
  constructor
  · intro h hEq
    exact h (by rw [hEq, Nat.xor_assoc, Nat.xor_self, Nat.xor_zero])
  · intro h hEq
    exact h (by rw [hEq, Nat.xor_assoc, Nat.xor_self, Nat.xor_zero])

/-- C7: the option-word encoding law.  A raw write passes the caller's word
through unmodified; a non-raw write of v stores
`(v & 0xffff) | ((~v & 0xffff) << 16)`, whose low 16 bits are `v & 0xffff`
and whose high 16 bits are their one's complement, so the report loop prints
OK for it; and the report loop prints ERR exactly for a word whose high half
is not the one's complement of its low half.  stm32lx_option_write stores the
caller's 32-bit value verbatim (its only register writes are the FIX arm and
the value itself). -/
theorem c7_option_word_encoding_law (v w : Nat) (or : Oracle) (fuel addr value : Nat)
    (hw : w < 2 ^ 32)
    (hws : (stm32lx_option_write or fuel 0x457 addr value TState.start).isSome = true) :
    stm32lx_cmd_option_val true w = w ∧
      stm32lx_cmd_option_val false v =
        (v &&& 0xffff) ||| (((v ^^^ 0xffffffff) &&& 0xffff) <<< 16) ∧
      stm32lx_cmd_option_val false v &&& 0xffff = v &&& 0xffff ∧
      stm32lx_cmd_option_val false v >>> 16 = (v &&& 0xffff) ^^^ 0xffff ∧
      stm32lx_option_report_ok (stm32lx_cmd_option_val false v) = true ∧
      (stm32lx_option_report_ok w = false ↔ w >>> 16 ≠ (w &&& 0xffff) ^^^ 0xffff) ∧
      (stm32lx_option_write or fuel 0x457 addr value TState.start).map
          (fun p => writesOf p.2.trace) =
        some [(STM32Lx_FLASH_PECR STM32L0_FLASH_BASE, STM32Lx_FLASH_PECR_FIX),
          (addr, value)] := by
  have hcv : stm32lx_cmd_option_val false v =
      (v &&& 0xffff) ||| (((v ^^^ 0xffffffff) &&& 0xffff) <<< 16) := rfl
  have ha : v &&& 0xffff < 65536 := by
    rw [and_ffff_eq_mod]
    exact Nat.mod_lt _ (by norm_num)
  have hb16 : (v ^^^ 0xffffffff) &&& 0xffff < 65536 := by
    rw [and_ffff_eq_mod]
    exact Nat.mod_lt _ (by norm_num)
  have hlow : stm32lx_cmd_option_val false v &&& 0xffff = v &&& 0xffff := by
    rw [hcv]
    exact lor_shl16_and_ffff _ _ ha
  have hhigh : stm32lx_cmd_option_val false v >>> 16 = (v &&& 0xffff) ^^^ 0xffff := by
    rw [hcv, lor_shl16_shr16 _ _ ha, xor_mask32_and_ffff]
  have henc32 : stm32lx_cmd_option_val false v < 2 ^ 32 := by
    rw [hcv]
    have h2 : (2 : Nat) ^ 16 = 65536 := by norm_num
    have h3 : (2 : Nat) ^ 32 = 4294967296 := by norm_num
    have h1 : ((v ^^^ 0xffffffff) &&& 0xffff) <<< 16 < 2 ^ 32 := by
      rw [Nat.shiftLeft_eq, h2, h3]
      omega
    exact Nat.or_lt_two_pow (lt_trans ha (by norm_num)) h1
  have hok : stm32lx_option_report_ok (stm32lx_cmd_option_val false v) = true := by
    unfold stm32lx_option_report_ok
    rw [shr16_of_xor_mask32 _ henc32, hhigh, hlow, Nat.xor_assoc, Nat.xor_self,
      Nat.xor_zero]
    exact beq_self_eq_true _
  have hiff : stm32lx_option_report_ok w = false ↔
      w >>> 16 ≠ (w &&& 0xffff) ^^^ 0xffff := by
    unfold stm32lx_option_report_ok
    rw [shr16_of_xor_mask32 w hw, beq_eq_false_iff_ne]
    exact xor_swap_ne _ _ _
  have htr : (stm32lx_option_write or fuel 0x457 addr value TState.start).map
      (fun p => writesOf p.2.trace) =
      some [(STM32Lx_FLASH_PECR STM32L0_FLASH_BASE, STM32Lx_FLASH_PECR_FIX),
        (addr, value)] := by
    obtain ⟨p, hp⟩ := Option.isSome_iff_exists.mp hws
    rw [hp, Option.map_some']
    simp [stm32lx_option_write, target_mem32_write32, TState.start, stm32lx_flash_base,
      stm32lx_is_stm32l1] at hp
    have hwbw := stm32lx_nvm_busy_wait_writes or _ fuel _ p.1 p.2 hp
    rw [hwbw]
    simp [writesOf]
  exact ⟨rfl, hcv, hlow, hhigh, hok, hiff, htr⟩

/-- Witness for C7 at v = 0x1234 and w = 0xdeadbeef, writing value 42 to the
option base on an idle device. -/
theorem c7_option_word_encoding_law_witness :
    (0xdeadbeef : Nat) < 2 ^ 32 ∧
      (stm32lx_cmd_option_val true 0xdeadbeef = 0xdeadbeef ∧
        stm32lx_cmd_option_val false 0x1234 =
          ((0x1234 : Nat) &&& 0xffff) |||
            ((((0x1234 : Nat) ^^^ 0xffffffff) &&& 0xffff) <<< 16) ∧
        stm32lx_cmd_option_val false 0x1234 &&& 0xffff = (0x1234 : Nat) &&& 0xffff ∧
        stm32lx_cmd_option_val false 0x1234 >>> 16 =
          ((0x1234 : Nat) &&& 0xffff) ^^^ 0xffff ∧
        stm32lx_option_report_ok (stm32lx_cmd_option_val false 0x1234) = true ∧
        (stm32lx_option_report_ok 0xdeadbeef = false ↔
          (0xdeadbeef : Nat) >>> 16 ≠ ((0xdeadbeef : Nat) &&& 0xffff) ^^^ 0xffff) ∧
        (stm32lx_option_write oracleZeros 2 0x457 STM32Lx_FLASH_OPT_BASE 42
            TState.start).map (fun p => writesOf p.2.trace) =
          some [(STM32Lx_FLASH_PECR STM32L0_FLASH_BASE, STM32Lx_FLASH_PECR_FIX),
            (STM32Lx_FLASH_OPT_BASE, 42)]) :=
  ⟨by norm_num,
    c7_option_word_encoding_law 0x1234 0xdeadbeef oracleZeros 2 STM32Lx_FLASH_OPT_BASE 42
      (by norm_num) (by decide)⟩

/-- C6 (amended): the console EEPROM write command rejects an out-of-range
address (any sub-command), a half-word write to an odd address and a word
write to a non-4-byte-aligned address with a usage message and performs no
EEPROM data write in those cases — but the command unconditionally runs the
control-register unlock at entry (five register writes and a verification
read, all before the rejection) and re-locks PECR on the way out: the only
register writes of each run are the unlock sequence and the final lock. -/
theorem c6_cmd_eeprom_rejects_after_unlock (or : Oracle) (cmd : List Char) (a1 a2 a3 val fuel : Nat)
    (hu : or.readResp 0 &&& STM32Lx_FLASH_PECR_PRGLOCK = 0)
    (h1 : STM32Lx_FLASH_EEPROM_BASE + 512 ≤ a1)
    (h2lo : STM32Lx_FLASH_EEPROM_BASE ≤ a2)
    (h2hi : a2 < STM32Lx_FLASH_EEPROM_BASE + 512) (h2odd : a2 % 2 = 1)
    (h3lo : STM32Lx_FLASH_EEPROM_BASE ≤ a3)
    (h3hi : a3 < STM32Lx_FLASH_EEPROM_BASE + 512) (h3mis : a3 % 4 ≠ 0) :
    (stm32lx_cmd_eeprom or fuel 0x457 4 cmd a1 val TState.start).map
        (fun p => (p.1, msgsOf p.2.trace, writesOf p.2.trace)) =
      some (true, ["usage: monitor eeprom [ARGS]"],
        [(STM32Lx_FLASH_PECR STM32L0_FLASH_BASE, STM32Lx_FLASH_PECR_PELOCK),
         (STM32Lx_FLASH_PEKEYR STM32L0_FLASH_BASE, STM32Lx_FLASH_PEKEY1),
         (STM32Lx_FLASH_PEKEYR STM32L0_FLASH_BASE, STM32Lx_FLASH_PEKEY2),
         (STM32Lx_FLASH_PRGKEYR STM32L0_FLASH_BASE, STM32Lx_FLASH_PRGKEY1),
         (STM32Lx_FLASH_PRGKEYR STM32L0_FLASH_BASE, STM32Lx_FLASH_PRGKEY2),
         (STM32Lx_FLASH_PECR STM32L0_FLASH_BASE, STM32Lx_FLASH_PECR_PELOCK)]) ∧
      (stm32lx_cmd_eeprom or fuel 0x457 4 halfwordChars a2 val TState.start).map
        (fun p => (p.1, msgsOf p.2.trace, writesOf p.2.trace)) =
      some (true, ["Refusing to do unaligned write", "usage: monitor eeprom [ARGS]"],
        [(STM32Lx_FLASH_PECR STM32L0_FLASH_BASE, STM32Lx_FLASH_PECR_PELOCK),
         (STM32Lx_FLASH_PEKEYR STM32L0_FLASH_BASE, STM32Lx_FLASH_PEKEY1),
         (STM32Lx_FLASH_PEKEYR STM32L0_FLASH_BASE, STM32Lx_FLASH_PEKEY2),
         (STM32Lx_FLASH_PRGKEYR STM32L0_FLASH_BASE, STM32Lx_FLASH_PRGKEY1),
         (STM32Lx_FLASH_PRGKEYR STM32L0_FLASH_BASE, STM32Lx_FLASH_PRGKEY2),
         (STM32Lx_FLASH_PECR STM32L0_FLASH_BASE, STM32Lx_FLASH_PECR_PELOCK)]) ∧
      (stm32lx_cmd_eeprom or fuel 0x457 4 wordChars a3 val TState.start).map
        (fun p => (p.1, msgsOf p.2.trace, writesOf p.2.trace)) =
      some (true, ["Refusing to do unaligned write", "usage: monitor eeprom [ARGS]"],
        [(STM32Lx_FLASH_PECR STM32L0_FLASH_BASE, STM32Lx_FLASH_PECR_PELOCK),
         (STM32Lx_FLASH_PEKEYR STM32L0_FLASH_BASE, STM32Lx_FLASH_PEKEY1),
         (STM32Lx_FLASH_PEKEYR STM32L0_FLASH_BASE, STM32Lx_FLASH_PEKEY2),
         (STM32Lx_FLASH_PRGKEYR STM32L0_FLASH_BASE, STM32Lx_FLASH_PRGKEY1),
         (STM32Lx_FLASH_PRGKEYR STM32L0_FLASH_BASE, STM32Lx_FLASH_PRGKEY2),
         (STM32Lx_FLASH_PECR STM32L0_FLASH_BASE, STM32Lx_FLASH_PECR_PELOCK)]) := by
  have hbeq : (or.readResp 0 &&& STM32Lx_FLASH_PECR_PRGLOCK == 0) = true := by
    rw [hu]
    rfl
  refine ⟨?_, ?_, ?_⟩
  · have hc : a1 < STM32Lx_FLASH_EEPROM_BASE ∨
        STM32Lx_FLASH_EEPROM_BASE + 512 ≤ a1 := Or.inr h1
    simp [stm32lx_cmd_eeprom, stm32lx_nvm_prog_data_unlock, stm32lx_nvm_lock, tc_printf,
      target_mem32_write32, target_mem32_read32, TState.start, stm32lx_flash_base,
      stm32lx_is_stm32l1, stm32lx_nvm_eeprom_size, STM32L0_FLASH_EEPROM_CAT1_SIZE,
      hbeq, hc, writesOf, msgsOf]
  · have hc2 : ¬(a2 < STM32Lx_FLASH_EEPROM_BASE ∨
        STM32Lx_FLASH_EEPROM_BASE + 512 ≤ a2) := by omega
    have mb : strncasecmpMatch halfwordChars byteChars = false := by decide
    have mh : strncasecmpMatch halfwordChars halfwordChars = true := by decide
    simp [stm32lx_cmd_eeprom, stm32lx_nvm_prog_data_unlock, stm32lx_nvm_lock, tc_printf,
      target_mem32_write32, target_mem32_read32, TState.start, stm32lx_flash_base,
      stm32lx_is_stm32l1, stm32lx_nvm_eeprom_size, STM32L0_FLASH_EEPROM_CAT1_SIZE,
      hbeq, hc2, h2odd, mb, mh, writesOf, msgsOf]
  · have hc3 : ¬(a3 < STM32Lx_FLASH_EEPROM_BASE ∨
        STM32Lx_FLASH_EEPROM_BASE + 512 ≤ a3) := by omega
    have halign3 : a3 &&& 3 ≠ 0 := by
      rw [and_three_eq_mod]
      exact h3mis
    have mb : strncasecmpMatch wordChars byteChars = false := by decide
    have mh : strncasecmpMatch wordChars halfwordChars = false := by decide
    have mw : strncasecmpMatch wordChars wordChars = true := by decide
    simp [stm32lx_cmd_eeprom, stm32lx_nvm_prog_data_unlock, stm32lx_nvm_lock, tc_printf,
      target_mem32_write32, target_mem32_read32, TState.start, stm32lx_flash_base,
      stm32lx_is_stm32l1, stm32lx_nvm_eeprom_size, STM32L0_FLASH_EEPROM_CAT1_SIZE,
      hbeq, hc3, halign3, mb, mh, mw, writesOf, msgsOf]

/-- Witness for C6: out-of-range 0x08090000, odd 0x08080001 and misaligned
0x08080002 on a Cat-1 part with an idle device. -/
theorem c6_cmd_eeprom_rejects_after_unlock_witness :
    oracleZeros.readResp 0 &&& STM32Lx_FLASH_PECR_PRGLOCK = 0 ∧
      ((stm32lx_cmd_eeprom oracleZeros 1 0x457 4 byteChars 0x08090000 7 TState.start).map
          (fun p => (p.1, msgsOf p.2.trace, writesOf p.2.trace)) =
        some (true, ["usage: monitor eeprom [ARGS]"],
          [(STM32Lx_FLASH_PECR STM32L0_FLASH_BASE, STM32Lx_FLASH_PECR_PELOCK),
           (STM32Lx_FLASH_PEKEYR STM32L0_FLASH_BASE, STM32Lx_FLASH_PEKEY1),
           (STM32Lx_FLASH_PEKEYR STM32L0_FLASH_BASE, STM32Lx_FLASH_PEKEY2),
           (STM32Lx_FLASH_PRGKEYR STM32L0_FLASH_BASE, STM32Lx_FLASH_PRGKEY1),
           (STM32Lx_FLASH_PRGKEYR STM32L0_FLASH_BASE, STM32Lx_FLASH_PRGKEY2),
           (STM32Lx_FLASH_PECR STM32L0_FLASH_BASE, STM32Lx_FLASH_PECR_PELOCK)]) ∧
        (stm32lx_cmd_eeprom oracleZeros 1 0x457 4 halfwordChars 0x08080001 7
            TState.start).map (fun p => (p.1, msgsOf p.2.trace, writesOf p.2.trace)) =
        some (true, ["Refusing to do unaligned write", "usage: monitor eeprom [ARGS]"],
          [(STM32Lx_FLASH_PECR STM32L0_FLASH_BASE, STM32Lx_FLASH_PECR_PELOCK),
           (STM32Lx_FLASH_PEKEYR STM32L0_FLASH_BASE, STM32Lx_FLASH_PEKEY1),
           (STM32Lx_FLASH_PEKEYR STM32L0_FLASH_BASE, STM32Lx_FLASH_PEKEY2),
           (STM32Lx_FLASH_PRGKEYR STM32L0_FLASH_BASE, STM32Lx_FLASH_PRGKEY1),
           (STM32Lx_FLASH_PRGKEYR STM32L0_FLASH_BASE, STM32Lx_FLASH_PRGKEY2),
           (STM32Lx_FLASH_PECR STM32L0_FLASH_BASE, STM32Lx_FLASH_PECR_PELOCK)]) ∧
        (stm32lx_cmd_eeprom oracleZeros 1 0x457 4 wordChars 0x08080002 7
            TState.start).map (fun p => (p.1, msgsOf p.2.trace, writesOf p.2.trace)) =
        some (true, ["Refusing to do unaligned write", "usage: monitor eeprom [ARGS]"],
          [(STM32Lx_FLASH_PECR STM32L0_FLASH_BASE, STM32Lx_FLASH_PECR_PELOCK),
           (STM32Lx_FLASH_PEKEYR STM32L0_FLASH_BASE, STM32Lx_FLASH_PEKEY1),
           (STM32Lx_FLASH_PEKEYR STM32L0_FLASH_BASE, STM32Lx_FLASH_PEKEY2),
           (STM32Lx_FLASH_PRGKEYR STM32L0_FLASH_BASE, STM32Lx_FLASH_PRGKEY1),
           (STM32Lx_FLASH_PRGKEYR STM32L0_FLASH_BASE, STM32Lx_FLASH_PRGKEY2),
           (STM32Lx_FLASH_PECR STM32L0_FLASH_BASE, STM32Lx_FLASH_PECR_PELOCK)])) :=
  ⟨by decide,
    c6_cmd_eeprom_rejects_after_unlock oracleZeros byteChars 0x08090000 0x08080001
      0x08080002 7 1 (by decide) (by decide) (by decide) (by decide) (by decide)
      (by decide) (by decide) (by decide)⟩

/-- C8: stm32lx_eeprom_erase masks the requested start address down to a
4-byte boundary (addr & ~3, i.e. the largest multiple of 4 not above addr)
before any erase trigger is written, and the erase-trigger writes are issued
in order at aligned_addr + k*blocksize exactly for the k with
k*blocksize < length (blocksize 4 on the EEPROM region): the register writes
of a completed run are the unlock sequence, the ERASE|DATA arm, the trigger
writes, and the final re-lock. -/
theorem c8_eeprom_erase_masks_addr_and_triggers_blocks (or : Oracle) (fuel addr length : Nat)
    (haddr : addr < 2 ^ 32)
    (hu : or.readResp 0 &&& STM32Lx_FLASH_PECR_PRGLOCK = 0)
    (harm : or.readResp 1 &&& (STM32Lx_FLASH_PECR_ERASE ||| STM32Lx_FLASH_PECR_DATA) =
      STM32Lx_FLASH_PECR_ERASE ||| STM32Lx_FLASH_PECR_DATA)
    (hs : (stm32lx_eeprom_erase or fuel l0Eeprom addr length TState.start).isSome = true) :
    (stm32lx_eeprom_erase or fuel l0Eeprom addr length TState.start).map
        (fun p => writesOf p.2.trace) =
      some ([(STM32Lx_FLASH_PECR STM32L0_FLASH_BASE, STM32Lx_FLASH_PECR_PELOCK),
         (STM32Lx_FLASH_PEKEYR STM32L0_FLASH_BASE, STM32Lx_FLASH_PEKEY1),
         (STM32Lx_FLASH_PEKEYR STM32L0_FLASH_BASE, STM32Lx_FLASH_PEKEY2),
         (STM32Lx_FLASH_PRGKEYR STM32L0_FLASH_BASE, STM32Lx_FLASH_PRGKEY1),
         (STM32Lx_FLASH_PRGKEYR STM32L0_FLASH_BASE, STM32Lx_FLASH_PRGKEY2),
         (STM32Lx_FLASH_PECR STM32L0_FLASH_BASE,
           STM32Lx_FLASH_PECR_ERASE ||| STM32Lx_FLASH_PECR_DATA)] ++
        (List.range ((length + 3) / 4)).map
          (fun k => ((addr &&& 0xfffffffc) + k * 4, 0)) ++
        [(STM32Lx_FLASH_PECR STM32L0_FLASH_BASE, STM32Lx_FLASH_PECR_PELOCK)]) ∧
      (∀ k, k < (length + 3) / 4 ↔ k * 4 < length) ∧
      addr &&& 0xfffffffc = addr / 4 * 4 ∧
      addr &&& 0xfffffffc ≤ addr ∧ addr < (addr &&& 0xfffffffc) + 4 ∧
      (addr &&& 0xfffffffc) % 4 = 0 := by
  have hal := and_fffffffc_eq addr haddr
  have hbeq : (or.readResp 0 &&& STM32Lx_FLASH_PECR_PRGLOCK == 0) = true := by
    rw [hu]
    rfl
  refine ⟨?_, fun k => by omega, hal, by rw [hal]; omega, by rw [hal]; omega,
    by rw [hal]; omega⟩
  obtain ⟨p, hp⟩ := Option.isSome_iff_exists.mp hs
  rw [hp, Option.map_some']
  simp [stm32lx_eeprom_erase, stm32lx_nvm_prog_data_unlock, stm32lx_nvm_lock,
    target_mem32_write32, target_mem32_read32, TState.start, stm32lx_flash_base,
    stm32lx_is_stm32l1, l0Eeprom, stm32l_add_eeprom, hbeq, harm] at hp
  have hwbw := stm32lx_nvm_busy_wait_writes or _ fuel _ p.1 p.2 hp
  rw [hwbw]
  simp [stm32lx_erase_pages_trace, eraseOffsets_four, writesOf, List.filterMap_map,
    Function.comp]
  show List.filterMap (some ∘ fun k => ((addr &&& 0xfffffffc) + k * 4, 0))
      (List.range ((length + 3) / 4)) = _
  rw [List.filterMap_eq_map]

/-- Witness for C8: erasing 6 bytes starting at the misaligned address
0x08080002 triggers at 0x08080000 and 0x08080004. -/
theorem c8_eeprom_erase_masks_addr_and_triggers_blocks_witness :
    (0x08080002 : Nat) < 2 ^ 32 ∧
      ((stm32lx_eeprom_erase oracleEepromEraseOk 2 l0Eeprom 0x08080002 6
          TState.start).map (fun p => writesOf p.2.trace) =
        some ([(STM32Lx_FLASH_PECR STM32L0_FLASH_BASE, STM32Lx_FLASH_PECR_PELOCK),
           (STM32Lx_FLASH_PEKEYR STM32L0_FLASH_BASE, STM32Lx_FLASH_PEKEY1),
           (STM32Lx_FLASH_PEKEYR STM32L0_FLASH_BASE, STM32Lx_FLASH_PEKEY2),
           (STM32Lx_FLASH_PRGKEYR STM32L0_FLASH_BASE, STM32Lx_FLASH_PRGKEY1),
           (STM32Lx_FLASH_PRGKEYR STM32L0_FLASH_BASE, STM32Lx_FLASH_PRGKEY2),
           (STM32Lx_FLASH_PECR STM32L0_FLASH_BASE,
             STM32Lx_FLASH_PECR_ERASE ||| STM32Lx_FLASH_PECR_DATA)] ++
          (List.range (((6 : Nat) + 3) / 4)).map
            (fun k => (((0x08080002 : Nat) &&& 0xfffffffc) + k * 4, 0)) ++
          [(STM32Lx_FLASH_PECR STM32L0_FLASH_BASE, STM32Lx_FLASH_PECR_PELOCK)]) ∧
        (∀ k, k < ((6 : Nat) + 3) / 4 ↔ k * 4 < 6) ∧
        (0x08080002 : Nat) &&& 0xfffffffc = 0x08080002 / 4 * 4 ∧
        (0x08080002 : Nat) &&& 0xfffffffc ≤ 0x08080002 ∧
        (0x08080002 : Nat) < ((0x08080002 : Nat) &&& 0xfffffffc) + 4 ∧
        ((0x08080002 : Nat) &&& 0xfffffffc) % 4 = 0) :=
  ⟨by norm_num,
    c8_eeprom_erase_masks_addr_and_triggers_blocks oracleEepromEraseOk 2 0x08080002 6
      (by norm_num) (by decide) (by decide)
      (by simp [stm32lx_eeprom_erase, stm32lx_erase_pages, stm32lx_nvm_busy_wait,
        stm32lx_nvm_prog_data_unlock, stm32lx_nvm_lock, target_mem32_write32,
        target_mem32_read32, target_check_error, TState.start, stm32lx_flash_base,
        stm32lx_is_stm32l1, l0Eeprom, stm32l_add_eeprom, oracleEepromEraseOk])⟩
